import Mathlib

/-!
Shallow embedding of the collection-mutation core of the clipboard-sharing
application (Next.js API routes over a Redis key-value store).

Embedded routes:
* POST /api/clip/create            — src/src/app/api/clip/create/route.ts
* GET  /api/clip/[id]              — src/src/app/api/clip/[id]/route.ts
* POST /api/clip/add/[id]          — src/src/app/api/clip/add/[id]/route.ts
* DELETE /api/clip/delete/[..]/[..] — src/src/app/api/clip/delete/[collectionId]/[itemId]/route.ts
  and its watch/multi/exec variant  — src/unnamed/part_009

Modelling conventions:
* JSON serialization is modelled algebraically: a store value (`Blob`) is
  either the image of `JSON.stringify` on a collection record (`wellFormed`)
  or any other byte string (`malformed`); `JSON.parse` succeeds exactly on
  the former. This reflects the round-trip property of the platform's JSON
  library, which the code relies on.
* A Redis key is modelled by `KeyState`: the stored blob (or absence), the
  remaining TTL, and a `version` counter bumped on every committed write.
  `WATCH`/`EXEC` semantics: an `EXEC` whose watched version differs from the
  key's current version aborts (returns null to the client); `SET` inside a
  committed transaction clears the TTL, a queued `EXPIRE` re-applies one.
* Machine time is frozen: timestamps and TTL readings are explicit inputs,
  so TTL statements are exact rather than up-to-clock-skew.
-/

namespace CrossClip

/-- A clipboard item as stored in a shared collection
(src/src/lib/types.ts, ClipboardItemData). The `type` field is a raw
string, not a closed enum: TypeScript union types are erased at runtime and
the add route stores whatever string the client sent. -/
structure ClipboardItemData where
  id : String
  type : String
  content : String
  htmlContent : Option String
  createdAt : String
deriving DecidableEq, Repr

/-- A shared collection record (src/src/lib/types.ts, SharedClipCollection). -/
structure SharedClipCollection where
  id : String
  items : List ClipboardItemData
  createdAt : String
deriving DecidableEq, Repr

/-- A raw store value: either the JSON serialization of a collection record
or any other (unparsable) byte string. -/
inductive Blob where
  | wellFormed (c : SharedClipCollection)
  | malformed (raw : String)
deriving DecidableEq, Repr

/-- Model of JSON.stringify on a collection record. -/
def serialize (c : SharedClipCollection) : Blob := .wellFormed c

/-- Model of JSON.parse into a SharedClipCollection; fails exactly on
blobs that are not serialized records. -/
def deserialize : Blob → Option SharedClipCollection
  | .wellFormed c => some c
  | .malformed _ => none

/-- State of one Redis key. `value = none` means the key is absent (never
created, or evicted by TTL expiry). `expiry = none` means no TTL is set.
`version` counts committed writes; it is the modification fact that
WATCH/EXEC consults. -/
structure KeyState where
  value : Option Blob
  expiry : Option Nat
  version : Nat
deriving DecidableEq, Repr

/-- Model of the Redis TTL command: -2 when the key is absent, -1 when the
key has no expiry, otherwise the remaining seconds. -/
def KeyState.ttl (s : KeyState) : Int :=
  match s.value with
  | none => -2
  | some _ =>
    match s.expiry with
    | none => -1
    | some t => (t : Int)

/-- A queued MULTI transaction of the shape both mutation routes build:
one SET (and optionally one EXPIRE), guarded by the version the connection
saw when it issued WATCH. `newExpiry` is the expiry the key has if the
transaction commits: SET clears any TTL and a queued `EXPIRE ttl` (issued
only when the TTL read back was positive) re-applies it. -/
structure Txn where
  watchedVersion : Nat
  newValue : Blob
  newExpiry : Option Nat
deriving DecidableEq, Repr

/-- Model of EXEC: commits (writes the queued value and expiry, bumps the
version) exactly when the watched key is still at the watched version;
otherwise aborts leaving the key untouched. The Bool is true on commit. -/
def execTxn (s : KeyState) (t : Txn) : KeyState × Bool :=
  if s.version = t.watchedVersion then
    ({ value := some t.newValue, expiry := t.newExpiry, version := s.version + 1 }, true)
  else (s, false)

/-- Outcome of a mutation route, one constructor per HTTP exit path. -/
inductive MutationResult where
  | created (item : ClipboardItemData)
  | deleted
  | notFound
  | notFoundItem
  | corrupted
  | conflict
  | invalidInput
  | storeError
deriving DecidableEq, Repr

/-- HTTP status code each mutation outcome is mapped to by the routes. -/
def MutationResult.status : MutationResult → Nat
  | .created _ => 201
  | .deleted => 200
  | .notFound => 404
  | .notFoundItem => 404
  | .corrupted => 500
  | .conflict => 409
  | .invalidInput => 400
  | .storeError => 500

/-- The add-item request body as parsed from JSON: every field may be
absent, and no field is constrained beyond what the route checks. -/
structure JsonBody where
  type : Option String
  content : Option String
  htmlContent : Option String
deriving DecidableEq, Repr

/-- A body that passed the add route's validation. -/
structure ItemBody where
  type : String
  content : String
  htmlContent : Option String
deriving DecidableEq, Repr

/-- The add route's body validation
(`!newItemData || typeof newItemData.content !== 'string' || !newItemData.type`):
`content` must be present as a string and `type` must be truthy (present and
nonempty). Nothing else is checked — in particular neither membership of
`type` in {text, url, html} nor any relation between `type` and
`htmlContent`. -/
def validateBody (b : JsonBody) : Option ItemBody :=
  match b.content, b.type with
  | some c, some t => if t = "" then none else some { type := t, content := c, htmlContent := b.htmlContent }
  | _, _ => none

/-- Construction of the stored item in the add route:
`{ ...newItemData, id: crypto.randomUUID(), createdAt: new Date().toISOString() }` —
the client's `type`, `content`, `htmlContent` pass through unchanged, `id`
and `createdAt` are server-assigned (modelled as explicit inputs `genId`,
`now`). -/
def mkNewItem (b : ItemBody) (genId now : String) : ClipboardItemData :=
  { id := genId
    type := b.type
    content := b.content
    htmlContent := b.htmlContent
    createdAt := now }

/-- Phase one of the add route (WATCH, GET, parse, build, TTL, queue MULTI):
everything between issuing WATCH and issuing EXEC, computed from the key
state `s` this window observes. Errors are the route's early exits (which
UNWATCH and return); success carries the new item and the queued
transaction. -/
def addPrepare (s : KeyState) (b : ItemBody) (genId now : String) :
    Except MutationResult (ClipboardItemData × Txn) :=
  match s.value with
  | none => .error .notFound
  | some blob =>
    match deserialize blob with
    | none => .error .corrupted
    | some cur =>
      let newItem := mkNewItem b genId now
      let updatedCollection : SharedClipCollection := { cur with items := newItem :: cur.items }
      let currentTTL := s.ttl
      .ok (newItem,
        { watchedVersion := s.version
          newValue := serialize updatedCollection
          newExpiry := if currentTTL > 0 then some currentTTL.toNat else none })

/-- The add route run without interference: prepare and EXEC both see the
same key state (no concurrent writer), as in any serialized execution. -/
def addItem (s : KeyState) (b : ItemBody) (genId now : String) :
    KeyState × MutationResult :=
  match addPrepare s b genId now with
  | .error e => (s, e)
  | .ok (item, t) =>
    let r := execTxn s t
    if r.2 then (r.1, .created item) else (s, .conflict)

/-- Full POST /api/clip/add/[id] handler on a parsed JSON body: body
validation (400 on failure) followed by the watch/get/multi/exec cycle. -/
def POST_add (s : KeyState) (b : JsonBody) (genId now : String) :
    KeyState × MutationResult :=
  match validateBody b with
  | none => (s, .invalidInput)
  | some body => addItem s body genId now

/-- Phase one of the watch-based delete variant (src/unnamed/part_009):
WATCH, GET, parse, `findIndex(item => item.id === itemId)`, filter, TTL,
queue MULTI. Errors are the route's early exits (UNWATCH and return). -/
def deletePrepare (s : KeyState) (itemId : String) : Except MutationResult Txn :=
  match s.value with
  | none => .error .notFound
  | some blob =>
    match deserialize blob with
    | none => .error .corrupted
    | some cur =>
      match cur.items.findIdx? (fun item => item.id == itemId) with
      | none => .error .notFoundItem
      | some _ =>
        let updatedCollection : SharedClipCollection :=
          { cur with items := cur.items.filter (fun item => item.id != itemId) }
        let currentTTL := s.ttl
        .ok { watchedVersion := s.version
              newValue := serialize updatedCollection
              newExpiry := if currentTTL > 0 then some currentTTL.toNat else none }

/-- The watch-based DELETE variant (src/unnamed/part_009) run without
interference: prepare and EXEC see the same key state. -/
def DELETE_item_watch (s : KeyState) (itemId : String) : KeyState × MutationResult :=
  match deletePrepare s itemId with
  | .error e => (s, e)
  | .ok t =>
    let r := execTxn s t
    if r.2 then (r.1, .deleted) else (s, .conflict)

/-- The DELETE route at
src/src/app/api/clip/delete/[collectionId]/[itemId]/route.ts: an unguarded
get/set cycle with no WATCH and no MULTI/EXEC. `sRead` is the key state the
GET and TTL commands observe; `sAtSet` is the key state at the moment the
final SET runs — a concurrent writer may have committed in between, and
nothing detects this: the SET overwrites unconditionally. The client's
typed get auto-parses JSON; an unparsable blob makes the handler throw into
its catch block (a 500, modelled as `storeError`). -/
def DELETE_item (sRead sAtSet : KeyState) (itemId : String) : KeyState × MutationResult :=
  match sRead.value with
  | none => (sAtSet, .notFound)
  | some blob =>
    match deserialize blob with
    | none => (sAtSet, .storeError)
    | some cur =>
      match cur.items.findIdx? (fun item => item.id == itemId) with
      | none => (sAtSet, .notFoundItem)
      | some _ =>
        let updatedCollection : SharedClipCollection :=
          { cur with items := cur.items.filter (fun item => item.id != itemId) }
        let currentTTL := sRead.ttl
        ({ value := some (serialize updatedCollection)
           expiry := if currentTTL > 0 then some currentTTL.toNat else none
           version := sAtSet.version + 1 }, .deleted)

/-- The whole key-value store: one `KeyState` per raw key string. -/
structure Store where
  keys : String → KeyState

/-- Key layout: a collection with external id `id` lives under `clip:<id>`. -/
def collectionKey (id : String) : String := "clip:" ++ id

/-- POST /api/clip/create (src/src/app/api/clip/create/route.ts): build an
empty collection record with a fresh random id (`genId`) and
`createdAt = now`, store it under `clip:<genId>` with
`EX = 7 * 24 * 60 * 60` seconds, return the id. -/
def POST_create (st : Store) (genId now : String) : Store × String :=
  let key := collectionKey genId
  let newCollection : SharedClipCollection := { id := genId, items := [], createdAt := now }
  let expirationInSeconds : Nat := 7 * 24 * 60 * 60
  ({ keys := fun k =>
      if k = key then
        { value := some (serialize newCollection)
          expiry := some expirationInSeconds
          version := (st.keys key).version + 1 }
      else st.keys k },
   genId)

/-- Outcome of the read route, one constructor per HTTP exit path. -/
inductive ReadResult where
  | success (c : SharedClipCollection)
  | notFound
  | corrupted
deriving DecidableEq, Repr

/-- HTTP status code each read outcome is mapped to by the route. -/
def ReadResult.status : ReadResult → Nat
  | .success _ => 200
  | .notFound => 404
  | .corrupted => 500

/-- GET /api/clip/[id] (src/src/app/api/clip/[id]/route.ts): GET the blob
under `clip:<id>`; 404 when the store returns null; JSON.parse the raw
data, 500 (Corrupted) when parsing fails; otherwise 200 with the record. -/
def GET_collection (st : Store) (id : String) : ReadResult :=
  match (st.keys (collectionKey id)).value with
  | none => .notFound
  | some blob =>
    match deserialize blob with
    | none => .corrupted
    | some data => .success data

/-- Two concurrent add operations whose watch/get windows overlap: both run
phase one against the same prior key state `s`, then their EXECs are
serialized by the store (first the op with body `b1`, then the op with
body `b2`). An op whose phase one failed returns its error without
reaching EXEC. Returns the final key state and both outcomes. -/
def raceAdd (s : KeyState) (b1 : ItemBody) (g1 n1 : String)
    (b2 : ItemBody) (g2 n2 : String) :
    KeyState × MutationResult × MutationResult :=
  match addPrepare s b1 g1 n1, addPrepare s b2 g2 n2 with
  | .error e1, .error e2 => (s, e1, e2)
  | .error e1, .ok (it2, t2) =>
    let r2 := execTxn s t2
    if r2.2 then (r2.1, e1, .created it2) else (s, e1, .conflict)
  | .ok (it1, t1), .error e2 =>
    let r1 := execTxn s t1
    if r1.2 then (r1.1, .created it1, e2) else (s, .conflict, e2)
  | .ok (it1, t1), .ok (it2, t2) =>
    let r1 := execTxn s t1
    let s1 := r1.1
    let r2 := execTxn s1 t2
    (r2.1,
     if r1.2 then .created it1 else .conflict,
     if r2.2 then .created it2 else .conflict)

/-- A serialized (non-overlapping) sequence of add calls, each given its
body and the server-assigned id and timestamp. -/
def runAdds (s : KeyState) : List (ItemBody × String × String) → KeyState
  | [] => s
  | (b, g, n) :: rest => runAdds (addItem s b g n).1 rest

/-!
Watch-state bookkeeping. Each mutation handler is abstracted to the
sequence of watch-relevant store commands it issues on its connection; a
handler leaks watch state iff interpreting that sequence leaves the watch
active when the handler returns. Redis clears a connection's watches on
UNWATCH and on EXEC (whether the transaction commits or aborts).
-/

/-- Watch-relevant store commands a handler can issue. -/
inductive StoreEffect where
  | watchCmd
  | unwatchCmd
  | execCmd
deriving DecidableEq, Repr

/-- Store calls inside a handler's try block that may throw a connection
error and divert control to the catch block. -/
inductive FaultPoint where
  | noFault
  | atGet
  | atTtl
  | atExec
deriving DecidableEq, Repr

/-- Whether the connection still holds a watch after issuing the given
command sequence: WATCH sets it, UNWATCH and EXEC clear it. -/
def watchActiveAfter (tr : List StoreEffect) : Bool :=
  tr.foldl (fun _ e =>
    match e with
    | .watchCmd => true
    | .unwatchCmd => false
    | .execCmd => false) false

/-- The watch-relevant command trace of the POST add handler
(src/src/app/api/clip/add/[id]/route.ts), by exit path: WATCH; a fault at
GET/TTL/EXEC lands in the catch block which calls UNWATCH; the
key-absent (404) and parse-failure (500) exits call UNWATCH explicitly;
otherwise EXEC runs, both on the conflict (409) and commit (201) exits. -/
def addRouteTrace (s : KeyState) (f : FaultPoint) : List StoreEffect :=
  [.watchCmd] ++
  (if f = .atGet then [.unwatchCmd]
   else
    match s.value with
    | none => [.unwatchCmd]
    | some blob =>
      match deserialize blob with
      | none => [.unwatchCmd]
      | some _ =>
        if f = .atTtl then [.unwatchCmd]
        else if f = .atExec then [.unwatchCmd]
        else [.execCmd])

/-- The watch-relevant command trace of the watch-based DELETE handler
(src/unnamed/part_009), by exit path: as for add, plus the item-not-found
(404) exit which calls UNWATCH explicitly before returning. -/
def deleteRouteTrace (s : KeyState) (itemId : String) (f : FaultPoint) : List StoreEffect :=
  [.watchCmd] ++
  (if f = .atGet then [.unwatchCmd]
   else
    match s.value with
    | none => [.unwatchCmd]
    | some blob =>
      match deserialize blob with
      | none => [.unwatchCmd]
      | some cur =>
        match cur.items.findIdx? (fun item => item.id == itemId) with
        | none => [.unwatchCmd]
        | some _ =>
          if f = .atTtl then [.unwatchCmd]
          else if f = .atExec then [.unwatchCmd]
          else [.execCmd])

/-!
Spec-side predicates (from the data-model section of the specification, for
comparison against what the code stores).
-/

/-- Specification well-formedness of a stored item: `type` lies in the
closed set {text, url, html} and `htmlContent` is set iff `type = html`. -/
def specWellFormedItem (it : ClipboardItemData) : Bool :=
  (it.type == "text" || it.type == "url" || it.type == "html") &&
    (it.htmlContent.isSome == (it.type == "html"))

/-- Specification well-formedness of a validated request body: same
condition on the client-supplied fields. -/
def specWellFormedBody (b : ItemBody) : Bool :=
  (b.type == "text" || b.type == "url" || b.type == "html") &&
    (b.htmlContent.isSome == (b.type == "html"))

/-- The watch-based DELETE variant (src/unnamed/part_009) with an
interference point: phase one (WATCH through MULTI queueing) observes
`sRead`, while the EXEC runs against `sExec` — the key state after any
concurrent writer committed in the window. -/
def DELETE_item_watch_raced (sRead sExec : KeyState) (itemId : String) :
    KeyState × MutationResult :=
  match deletePrepare sRead itemId with
  | .error e => (sExec, e)
  | .ok t =>
    let r := execTxn sExec t
    if r.2 then (r.1, .deleted) else (sExec, .conflict)

/-!
Concrete fixtures used by witnesses and counterexamples.
-/

/-- An empty collection record, as the create route builds it. -/
def colEmpty : SharedClipCollection :=
  { id := "abc", items := [], createdAt := "2026-01-01T00:00:00.000Z" }

/-- Key state holding the empty collection with the creation TTL. -/
def sColEmpty : KeyState :=
  { value := some (.wellFormed colEmpty), expiry := some 604800, version := 0 }

/-- A stored text item. -/
def itemA : ClipboardItemData :=
  { id := "a1", type := "text", content := "hello", htmlContent := none
    createdAt := "2026-01-01T00:00:01.000Z" }

/-- A second stored item, written by a concurrent request in the C2
counterexample. -/
def itemB : ClipboardItemData :=
  { id := "b2", type := "url", content := "http://x.com", htmlContent := none
    createdAt := "2026-01-01T00:00:02.000Z" }

/-- A collection holding the one item `itemA`. -/
def colWithA : SharedClipCollection :=
  { id := "abc", items := [itemA], createdAt := "2026-01-01T00:00:00.000Z" }

/-- Key state holding `colWithA` with the creation TTL. -/
def sColWithA : KeyState :=
  { value := some (.wellFormed colWithA), expiry := some 604800, version := 0 }

/-- Key state after a concurrent request prepended `itemB` to `colWithA`
and committed: one more write, hence one version ahead of `sColWithA`. -/
def sInterfered : KeyState :=
  { value := some (.wellFormed
      { id := "abc", items := [itemB, itemA], createdAt := "2026-01-01T00:00:00.000Z" })
    expiry := some 604800, version := 1 }

/-- A validated text body. -/
def bodyText : ItemBody := { type := "text", content := "hello", htmlContent := none }

/-- A validated url body. -/
def bodyUrl : ItemBody := { type := "url", content := "http://x.com", htmlContent := none }

/-- A store whose key `clip:bad` holds an unparsable blob. -/
def stBad : Store :=
  { keys := fun k =>
      if k = collectionKey "bad" then
        { value := some (.malformed "junk"), expiry := none, version := 3 }
      else
        { value := none, expiry := none, version := 0 } }

/-- A request body that passes the add route's validation while violating
the data-model invariant: `type` is text yet `htmlContent` is set. -/
def bodyJsonBad : JsonBody :=
  { type := some "text", content := some "hello", htmlContent := some "<b>hello</b>" }

/-- The item the add route builds and stores from `bodyJsonBad` with
server-assigned id i1 and timestamp t1. -/
def itemBad : ClipboardItemData :=
  { id := "i1", type := "text", content := "hello", htmlContent := some "<b>hello</b>"
    createdAt := "t1" }

/-!
Helper lemmas shared by the claim theorems.
-/

/-- On a readable key (present, well-formed blob) the add route's phase one
always succeeds with the prepended item and the TTL-preserving queue. -/
theorem addPrepare_ok (s : KeyState) (cur : SharedClipCollection) (b : ItemBody)
    (genId now : String) (h : s.value = some (.wellFormed cur)) :
    addPrepare s b genId now =
      .ok (mkNewItem b genId now,
        { watchedVersion := s.version
          newValue := serialize { cur with items := mkNewItem b genId now :: cur.items }
          newExpiry := if s.ttl > 0 then some s.ttl.toNat else none }) := by
  simp [addPrepare, h, deserialize]

/-- EXEC commits when the key is still at the watched version. -/
theorem execTxn_commit (s : KeyState) (t : Txn) (h : t.watchedVersion = s.version) :
    execTxn s t =
      ({ value := some t.newValue, expiry := t.newExpiry, version := s.version + 1 }, true) := by
  simp [execTxn, h]

/-- EXEC aborts, leaving the key untouched, when the key's version moved
since the WATCH. -/
theorem execTxn_abort (s : KeyState) (t : Txn) (h : s.version ≠ t.watchedVersion) :
    execTxn s t = (s, false) := by
  simp [execTxn, h]

/-- The queued expiry (EXPIRE of the TTL read back, skipped unless
positive) equals the key's current expiry, for a present key whose TTL is
not in the same-second boundary case `some 0`. -/
theorem queuedExpiry_eq (s : KeyState) (blob : Blob) (h : s.value = some blob)
    (h0 : s.expiry ≠ some 0) :
    (if s.ttl > 0 then some s.ttl.toNat else none) = s.expiry := by
  cases hexp : s.expiry with
  | none => simp [KeyState.ttl, h, hexp]
  | some t =>
    have ht : t ≠ 0 := by
      intro h'
      exact h0 (by rw [hexp, h'])
    have htpos : (0 : Int) < (t : Int) := by
      exact_mod_cast Nat.pos_of_ne_zero ht
    simp [KeyState.ttl, h, hexp, htpos]

/-- One serialized add on a readable key commits: it prepends the new item,
keeps the other record fields, preserves the expiry shape, bumps the
version, and returns 201 with the new item. -/
theorem addItem_step (s : KeyState) (cur : SharedClipCollection) (b : ItemBody)
    (genId now : String) (h : s.value = some (.wellFormed cur)) :
    addItem s b genId now =
      ({ value := some (.wellFormed { cur with items := mkNewItem b genId now :: cur.items })
         expiry := if s.ttl > 0 then some s.ttl.toNat else none
         version := s.version + 1 }, .created (mkNewItem b genId now)) := by
  rw [addItem, addPrepare_ok s cur b genId now h]
  simp [execTxn, serialize]

/-- A list in which no element satisfies the membership test has no found
index. -/
theorem findIdx?_eq_none_of_all_ne (itemId : String) (l : List ClipboardItemData)
    (h : ∀ it ∈ l, it.id ≠ itemId) :
    l.findIdx? (fun item => item.id == itemId) = none := by
  rw [List.findIdx?_eq_none_iff]
  intro it hit
  simpa using h it hit

/-- A list containing an element with the matched id has a found index. -/
theorem findIdx?_ne_none_of_mem (itemId : String) (l : List ClipboardItemData)
    (h : ∃ it ∈ l, it.id = itemId) :
    l.findIdx? (fun item => item.id == itemId) ≠ none := by
  rcases h with ⟨it, hmem, hid⟩
  rw [Ne, List.findIdx?_eq_none_iff]
  intro hall
  have := hall it hmem
  rw [hid] at this
  simp at this

/-- Filtering out an id leaves no element with that id to find. -/
theorem findIdx?_filter_self (itemId : String) (l : List ClipboardItemData) :
    (l.filter (fun item => item.id != itemId)).findIdx?
      (fun item => item.id == itemId) = none := by
  rw [List.findIdx?_eq_none_iff]
  intro it hit
  rcases List.mem_filter.mp hit with ⟨_, hne⟩
  simpa using hne

/-- Helper for C1: the fully determined outcome of a racing pair of adds
whose phase ones both read the same readable key state. -/
theorem raceAdd_eq (s : KeyState) (cur : SharedClipCollection) (b1 b2 : ItemBody)
    (g1 n1 g2 n2 : String) (h : s.value = some (.wellFormed cur)) :
    raceAdd s b1 g1 n1 b2 g2 n2 =
      ({ value := some (.wellFormed { cur with items := mkNewItem b1 g1 n1 :: cur.items })
         expiry := if s.ttl > 0 then some s.ttl.toNat else none
         version := s.version + 1 },
       .created (mkNewItem b1 g1 n1), .conflict) := by
  simp only [raceAdd, addPrepare_ok s cur b1 g1 n1 h, addPrepare_ok s cur b2 g2 n2 h]
  simp [execTxn, serialize]

/-- C1: for every pair of concurrent addItem operations against the same
collection key whose watch/get windows overlap (both phase ones read the
same prior key state), at most one of the two commits; and when the prior
state is readable so that both reach their EXEC, the first EXEC wins, the
second operation fails with Conflict (HTTP 409), and the final key state
holds exactly the winner's write — the loser does not overwrite it. -/
theorem racing_adds_at_most_one_winner
    (s : KeyState) (b1 b2 : ItemBody) (g1 n1 g2 n2 : String) :
    (∀ i1 i2, ¬ ((raceAdd s b1 g1 n1 b2 g2 n2).2.1 = .created i1 ∧
                 (raceAdd s b1 g1 n1 b2 g2 n2).2.2 = .created i2)) ∧
    (∀ cur, s.value = some (.wellFormed cur) →
      raceAdd s b1 g1 n1 b2 g2 n2 =
        ({ value := some (.wellFormed { cur with items := mkNewItem b1 g1 n1 :: cur.items })
           expiry := if s.ttl > 0 then some s.ttl.toNat else none
           version := s.version + 1 },
         .created (mkNewItem b1 g1 n1), .conflict) ∧
      MutationResult.conflict.status = 409) := by
  constructor
  · intro i1 i2 hboth
    rcases hboth with ⟨h1, h2⟩
    cases hv : s.value with
    | none => simp [raceAdd, addPrepare, hv] at h1
    | some blob =>
      cases blob with
      | malformed raw => simp [raceAdd, addPrepare, hv, deserialize] at h1
      | wellFormed cur =>
        rw [raceAdd_eq s cur b1 b2 g1 n1 g2 n2 hv] at h2
        simp at h2
  · intro cur h
    exact ⟨raceAdd_eq s cur b1 b2 g1 n1 g2 n2 h, rfl⟩

/-- Witness for C1 at a concrete readable key state. -/
theorem racing_adds_at_most_one_winner_witness :
    raceAdd sColEmpty bodyText "i1" "t1" bodyUrl "i2" "t2" =
      ({ value := some (.wellFormed { colEmpty with
            items := mkNewItem bodyText "i1" "t1" :: colEmpty.items })
         expiry := if sColEmpty.ttl > 0 then some sColEmpty.ttl.toNat else none
         version := sColEmpty.version + 1 },
       .created (mkNewItem bodyText "i1" "t1"), .conflict) ∧
    MutationResult.conflict.status = 409 :=
  (racing_adds_at_most_one_winner sColEmpty bodyText bodyUrl "i1" "t1" "i2" "t2").2
    colEmpty rfl

/-- C3: a serialized sequence of successful addItem calls on a readable
collection yields exactly the reverse-chronological insertion order: the
final items sequence is the reversed list of the freshly constructed items
(each with its server-assigned id and createdAt) prepended to the initial
items, so the head is always the most recently committed item, with no
deduplication and no length cap; the bumped version count shows every call
committed. -/
theorem serialized_adds_newest_first
    (s : KeyState) (cur : SharedClipCollection)
    (calls : List (ItemBody × String × String))
    (h : s.value = some (.wellFormed cur)) :
    (runAdds s calls).value =
      some (.wellFormed
        { cur with items :=
            (calls.map (fun c => mkNewItem c.1 c.2.1 c.2.2)).reverse ++ cur.items }) ∧
    (runAdds s calls).version = s.version + calls.length := by
  induction calls generalizing s cur with
  | nil => simpa [runAdds] using h
  | cons hd tl ih =>
    obtain ⟨b, g, n⟩ := hd
    rw [runAdds, addItem_step s cur b g n h]
    have ih' := ih
      { value := some (.wellFormed { cur with items := mkNewItem b g n :: cur.items })
        expiry := if s.ttl > 0 then some s.ttl.toNat else none
        version := s.version + 1 }
      { cur with items := mkNewItem b g n :: cur.items } rfl
    constructor
    · rw [ih'.1]
      simp [List.reverse_cons, List.append_assoc]
    · rw [ih'.2]
      simp
      omega

/-- Witness for C3: two serialized adds on the empty collection. -/
theorem serialized_adds_newest_first_witness :
    (runAdds sColEmpty [(bodyText, "i1", "t1"), (bodyUrl, "i2", "t2")]).value =
      some (.wellFormed
        { colEmpty with items :=
            ([(bodyText, "i1", "t1"), (bodyUrl, "i2", "t2")].map
              (fun c => mkNewItem c.1 c.2.1 c.2.2)).reverse ++ colEmpty.items }) ∧
    (runAdds sColEmpty [(bodyText, "i1", "t1"), (bodyUrl, "i2", "t2")]).version =
      sColEmpty.version + 2 :=
  serialized_adds_newest_first sColEmpty colEmpty
    [(bodyText, "i1", "t1"), (bodyUrl, "i2", "t2")] rfl

/-- C4: a mutation never increases the collection key's TTL. On a readable
key (away from the sub-second boundary case where the TTL command reads 0),
the TTL read before the rewrite is exactly re-applied by the queued EXPIRE
when positive, and no TTL is applied when none is set, so after addItem and
after both delete variants the key's expiry equals — in particular never
exceeds — the expiry measured immediately before the call. -/
theorem mutation_preserves_ttl
    (s : KeyState) (cur : SharedClipCollection) (b : ItemBody)
    (genId now itemId : String)
    (h : s.value = some (.wellFormed cur)) (h0 : s.expiry ≠ some 0) :
    (addItem s b genId now).1.expiry = s.expiry ∧
    (DELETE_item_watch s itemId).1.expiry = s.expiry ∧
    (DELETE_item s s itemId).1.expiry = s.expiry := by
  have hq := queuedExpiry_eq s _ h h0
  refine ⟨?_, ?_, ?_⟩
  · rw [addItem_step s cur b genId now h]
    exact hq
  · cases hidx : cur.items.findIdx? (fun item => item.id == itemId) with
    | none => simp [DELETE_item_watch, deletePrepare, h, deserialize, hidx]
    | some i =>
      simp [DELETE_item_watch, deletePrepare, h, deserialize, hidx, execTxn, serialize, hq]
  · cases hidx : cur.items.findIdx? (fun item => item.id == itemId) with
    | none => simp [DELETE_item, h, deserialize, hidx]
    | some i => simp [DELETE_item, h, deserialize, hidx, serialize, hq]

/-- Witness for C4 at a concrete key state with a 7-day TTL. -/
theorem mutation_preserves_ttl_witness :
    (addItem sColWithA bodyText "i9" "t9").1.expiry = sColWithA.expiry ∧
    (DELETE_item_watch sColWithA "a1").1.expiry = sColWithA.expiry ∧
    (DELETE_item sColWithA sColWithA "a1").1.expiry = sColWithA.expiry :=
  mutation_preserves_ttl sColWithA colWithA bodyText "i9" "t9" "a1" rfl (by decide)

/-- C5: deleting an itemId not present in a readable collection yields
NotFoundItem (HTTP 404), never a silent success, in both delete variants;
and a second delete of the same id immediately after a first delete is
reported as not-found, not success. -/
theorem delete_missing_item_not_found
    (s : KeyState) (cur : SharedClipCollection) (itemId : String)
    (h : s.value = some (.wellFormed cur)) :
    ((∀ it ∈ cur.items, it.id ≠ itemId) →
      DELETE_item_watch s itemId = (s, .notFoundItem) ∧
      DELETE_item s s itemId = (s, .notFoundItem) ∧
      MutationResult.notFoundItem.status = 404) ∧
    (DELETE_item_watch (DELETE_item_watch s itemId).1 itemId).2 = .notFoundItem := by
  constructor
  · intro hall
    have hidx := findIdx?_eq_none_of_all_ne itemId cur.items hall
    refine ⟨?_, ?_, rfl⟩
    · simp [DELETE_item_watch, deletePrepare, h, deserialize, hidx]
    · simp [DELETE_item, h, deserialize, hidx]
  · cases hidx : cur.items.findIdx? (fun item => item.id == itemId) with
    | none =>
      have h1 : DELETE_item_watch s itemId = (s, .notFoundItem) := by
        simp [DELETE_item_watch, deletePrepare, h, deserialize, hidx]
      rw [h1]
      simp [DELETE_item_watch, deletePrepare, h, deserialize, hidx]
    | some i =>
      have h1 : DELETE_item_watch s itemId =
          ({ value := some (.wellFormed
                { cur with items := cur.items.filter (fun it => it.id != itemId) })
             expiry := if s.ttl > 0 then some s.ttl.toNat else none
             version := s.version + 1 }, .deleted) := by
        simp [DELETE_item_watch, deletePrepare, h, deserialize, hidx, execTxn, serialize]
      rw [h1]
      have hidx2 := findIdx?_filter_self itemId cur.items
      simp [DELETE_item_watch, deletePrepare, deserialize, hidx2]

/-- Witness for C5: deleting an absent id from a concrete collection. -/
theorem delete_missing_item_not_found_witness :
    DELETE_item_watch sColWithA "zz" = (sColWithA, .notFoundItem) ∧
    DELETE_item sColWithA sColWithA "zz" = (sColWithA, .notFoundItem) ∧
    MutationResult.notFoundItem.status = 404 :=
  (delete_missing_item_not_found sColWithA colWithA "zz" rfl).1 (by decide)

/-- C10: when a readable collection contains at least one item with the
requested id, a successful delete (in both variants) replaces the items
sequence by the original filtered to the items whose id differs — removing
every occurrence of the id, keeping the survivors as an order-preserving
subsequence — and leaves the collection's id and createdAt unchanged
(captured by the record update touching only `items`). -/
theorem delete_removes_matching_items
    (s : KeyState) (cur : SharedClipCollection) (itemId : String)
    (h : s.value = some (.wellFormed cur))
    (hmem : ∃ it ∈ cur.items, it.id = itemId) :
    DELETE_item_watch s itemId =
      ({ value := some (.wellFormed
            { cur with items := cur.items.filter (fun it => it.id != itemId) })
         expiry := if s.ttl > 0 then some s.ttl.toNat else none
         version := s.version + 1 }, .deleted) ∧
    DELETE_item s s itemId =
      ({ value := some (.wellFormed
            { cur with items := cur.items.filter (fun it => it.id != itemId) })
         expiry := if s.ttl > 0 then some s.ttl.toNat else none
         version := s.version + 1 }, .deleted) ∧
    (∀ it, it ∈ cur.items.filter (fun it => it.id != itemId) ↔
      it ∈ cur.items ∧ it.id ≠ itemId) ∧
    (cur.items.filter (fun it => it.id != itemId)).Sublist cur.items := by
  have hne := findIdx?_ne_none_of_mem itemId cur.items hmem
  cases hidx : cur.items.findIdx? (fun item => item.id == itemId) with
  | none => exact absurd hidx hne
  | some i =>
    refine ⟨?_, ?_, ?_, List.filter_sublist _⟩
    · simp [DELETE_item_watch, deletePrepare, h, deserialize, hidx, execTxn, serialize]
    · simp [DELETE_item, h, deserialize, hidx, serialize]
    · intro it
      rw [List.mem_filter]
      simp

/-- Witness for C10: deleting the one present item from a concrete
collection. -/
theorem delete_removes_matching_items_witness :
    DELETE_item_watch sColWithA "a1" =
      ({ value := some (.wellFormed
            { colWithA with items := colWithA.items.filter (fun it => it.id != "a1") })
         expiry := if sColWithA.ttl > 0 then some sColWithA.ttl.toNat else none
         version := sColWithA.version + 1 }, .deleted) ∧
    DELETE_item sColWithA sColWithA "a1" =
      ({ value := some (.wellFormed
            { colWithA with items := colWithA.items.filter (fun it => it.id != "a1") })
         expiry := if sColWithA.ttl > 0 then some sColWithA.ttl.toNat else none
         version := sColWithA.version + 1 }, .deleted) ∧
    (∀ it, it ∈ colWithA.items.filter (fun it => it.id != "a1") ↔
      it ∈ colWithA.items ∧ it.id ≠ "a1") ∧
    (colWithA.items.filter (fun it => it.id != "a1")).Sublist colWithA.items :=
  delete_removes_matching_items sColWithA colWithA "a1" rfl
    ⟨itemA, by simp [colWithA], rfl⟩

/-- C6: read composed after create round-trips. For every prior store and
every generated id, create persists under key `clip:<id>` the serialized
empty collection with a 604800-second (7 * 24 * 60 * 60, 7-day) TTL and
returns that id, and a subsequent read of the returned id succeeds with a
record having empty items and the same id. -/
theorem read_after_create (st : Store) (genId now : String) :
    (POST_create st genId now).2 = genId ∧
    ((POST_create st genId now).1.keys (collectionKey genId)).value =
      some (serialize { id := genId, items := [], createdAt := now }) ∧
    ((POST_create st genId now).1.keys (collectionKey genId)).expiry = some 604800 ∧
    GET_collection (POST_create st genId now).1 genId =
      .success { id := genId, items := [], createdAt := now } := by
  refine ⟨rfl, ?_, ?_, ?_⟩ <;>
    simp [POST_create, GET_collection, collectionKey, serialize, deserialize]

/-- C7: the read route returns exactly one of three typed outcomes,
decided by the key's stored value: NotFound (HTTP 404) when the store
returns absent for the key, the record (HTTP 200) when the stored blob
deserializes, and Corrupted (HTTP 500) when deserialization fails — the
failure is a total, typed outcome of the embedding, never an escape. -/
theorem read_trichotomy (st : Store) (id : String) :
    ((st.keys (collectionKey id)).value = none →
      GET_collection st id = .notFound ∧ ReadResult.notFound.status = 404) ∧
    (∀ c, (st.keys (collectionKey id)).value = some (.wellFormed c) →
      GET_collection st id = .success c ∧ (ReadResult.success c).status = 200) ∧
    (∀ raw, (st.keys (collectionKey id)).value = some (.malformed raw) →
      GET_collection st id = .corrupted ∧ ReadResult.corrupted.status = 500) := by
  refine ⟨fun hv => ⟨?_, rfl⟩, fun c hv => ⟨?_, rfl⟩, fun raw hv => ⟨?_, rfl⟩⟩ <;>
    simp [GET_collection, hv, deserialize]

/-- Witness for C7: reading a key holding an unparsable blob is surfaced
as the typed Corrupted outcome with status 500. -/
theorem read_trichotomy_witness :
    GET_collection stBad "bad" = .corrupted ∧ ReadResult.corrupted.status = 500 :=
  (read_trichotomy stBad "bad").2.2 "junk" (by simp [stBad])

/-- C8: on every exit path of the watch-registering mutation handlers —
key absent (404), unparsable blob (500), item not found (404, delete
only), transaction aborted (409), store call threw (500), and successful
commit — the watch is released before the handler returns, by an explicit
UNWATCH or by the EXEC itself, for every key state, item id, and fault
point; no mutation leaks watch state on the connection. -/
theorem mutation_releases_watch (s : KeyState) (itemId : String) (f : FaultPoint) :
    watchActiveAfter (addRouteTrace s f) = false ∧
    watchActiveAfter (deleteRouteTrace s itemId f) = false := by
  constructor
  · cases hv : s.value with
    | none => cases f <;> simp [addRouteTrace, watchActiveAfter, hv]
    | some blob =>
      cases blob with
      | wellFormed cur => cases f <;> simp [addRouteTrace, watchActiveAfter, hv, deserialize]
      | malformed raw => cases f <;> simp [addRouteTrace, watchActiveAfter, hv, deserialize]
  · cases hv : s.value with
    | none => cases f <;> simp [deleteRouteTrace, watchActiveAfter, hv]
    | some blob =>
      cases blob with
      | malformed raw => cases f <;> simp [deleteRouteTrace, watchActiveAfter, hv, deserialize]
      | wellFormed cur =>
        cases hidx : cur.items.findIdx? (fun item => item.id == itemId) with
        | none =>
          cases f <;> simp [deleteRouteTrace, watchActiveAfter, hv, deserialize, hidx]
        | some i =>
          cases f <;> simp [deleteRouteTrace, watchActiveAfter, hv, deserialize, hidx]

/-- A successful phase one of the watch-based delete always watches the
version of the key state it read. -/
theorem deletePrepare_ok_watchedVersion (s : KeyState) (itemId : String) (t : Txn)
    (h : deletePrepare s itemId = .ok t) : t.watchedVersion = s.version := by
  cases hv : s.value with
  | none => simp [deletePrepare, hv] at h
  | some blob =>
    cases blob with
    | malformed raw => simp [deletePrepare, hv, deserialize] at h
    | wellFormed cur =>
      cases hidx : cur.items.findIdx? (fun item => item.id == itemId) with
      | none => simp [deletePrepare, hv, deserialize, hidx] at h
      | some i =>
        simp [deletePrepare, hv, deserialize, hidx] at h
        subst h
        rfl

/-- Counterexample for C2: the DELETE route at
src/src/app/api/clip/delete/[collectionId]/[itemId]/route.ts does not
follow the optimistic-locking algorithm. At this concrete input a
concurrent writer committed (bumping the key's version and prepending an
item) between the route's GET and its SET; the route nevertheless commits
with a success result — not Conflict — and its write discards the
concurrent writer's item. -/
theorem delete_route_commits_over_concurrent_write :
    sInterfered.version ≠ sColWithA.version ∧
    DELETE_item sColWithA sInterfered "a1" =
      ({ value := some (.wellFormed
            { id := "abc", items := [], createdAt := "2026-01-01T00:00:00.000Z" })
         expiry := some 604800
         version := 2 }, .deleted) ∧
    (DELETE_item sColWithA sInterfered "a1").2 ≠ .conflict ∧
    (DELETE_item sColWithA sInterfered "a1").1.value ≠ sInterfered.value := by
  refine ⟨by decide, by rfl, by decide, by decide⟩

/-- C2 (amended): only the watch-based delete variant (src/unnamed/part_009)
follows addItem's optimistic-locking algorithm — whenever its phase one
succeeded against a read state and the key's version moved before its EXEC,
it fails with Conflict (HTTP 409) and leaves the key untouched — while the
DELETE route at the canonical path performs an unguarded get/set and can
never return Conflict. -/
theorem delete_conflict_behavior :
    (∀ sRead sExec : KeyState, ∀ itemId : String, ∀ t : Txn,
      deletePrepare sRead itemId = .ok t →
      sExec.version ≠ sRead.version →
      DELETE_item_watch_raced sRead sExec itemId = (sExec, .conflict)) ∧
    (∀ sRead sAtSet : KeyState, ∀ itemId : String,
      (DELETE_item sRead sAtSet itemId).2 ≠ .conflict) ∧
    MutationResult.conflict.status = 409 := by
  refine ⟨?_, ?_, rfl⟩
  · intro sRead sExec itemId t h hver
    have hw := deletePrepare_ok_watchedVersion sRead itemId t h
    simp only [DELETE_item_watch_raced, h]
    simp [execTxn, hw, hver]
  · intro sRead sAtSet itemId
    cases hv : sRead.value with
    | none => simp [DELETE_item, hv]
    | some blob =>
      cases blob with
      | malformed raw => simp [DELETE_item, hv, deserialize]
      | wellFormed cur =>
        cases hidx : cur.items.findIdx? (fun item => item.id == itemId) with
        | none => simp [DELETE_item, hv, deserialize, hidx]
        | some i => simp [DELETE_item, hv, deserialize, hidx]

/-- Witness for the amended C2: the watch-based variant, raced by the
concurrent writer of the counterexample, returns Conflict and leaves the
key at the concurrent writer's state. -/
theorem delete_conflict_behavior_witness :
    DELETE_item_watch_raced sColWithA sInterfered "a1" = (sInterfered, .conflict) ∧
    (DELETE_item sColWithA sInterfered "a1").2 ≠ .conflict :=
  ⟨delete_conflict_behavior.1 sColWithA sInterfered "a1"
      { watchedVersion := 0
        newValue := .wellFormed
          { id := "abc", items := [], createdAt := "2026-01-01T00:00:00.000Z" }
        newExpiry := some 604800 }
      (by rfl) (by decide),
   delete_conflict_behavior.2.1 sColWithA sInterfered "a1"⟩

/-- Counterexample for C9: the add route checks only that `content` is a
string and `type` is truthy, so it accepts and stores items violating the
data-model invariant. A body with type text and `htmlContent` set is
stored as-is (htmlContent set without type html), and a body whose type is
banana — outside the closed set {text, url, html} — is stored too. -/
theorem add_stores_invariant_violating_item :
    POST_add sColEmpty bodyJsonBad "i1" "t1" =
      ({ value := some (.wellFormed { colEmpty with items := [itemBad] })
         expiry := some 604800, version := 1 }, .created itemBad) ∧
    specWellFormedItem itemBad = false ∧
    (POST_add sColEmpty
        { type := some "banana", content := some "x", htmlContent := none } "i2" "t2").2 =
      .created { id := "i2", type := "banana", content := "x", htmlContent := none
                 createdAt := "t2" } ∧
    specWellFormedItem
      { id := "i2", type := "banana", content := "x", htmlContent := none
        createdAt := "t2" } = false := by
  refine ⟨by rfl, by decide, by rfl, by decide⟩

/-- C9 (amended): addItem stores the client-supplied type, content and
htmlContent unchanged (overriding only id and createdAt), so the stored
item satisfies the data-model invariant — type in the closed set
{text, url, html} and htmlContent set iff type is html — exactly when the
validated request body already satisfies it; the route itself enforces
nothing beyond content being a string and type being nonempty. -/
theorem add_item_wellformed_iff_body
    (s : KeyState) (cur : SharedClipCollection) (b : ItemBody) (genId now : String)
    (h : s.value = some (.wellFormed cur)) :
    (addItem s b genId now).2 = .created (mkNewItem b genId now) ∧
    specWellFormedItem (mkNewItem b genId now) = specWellFormedBody b := by
  refine ⟨?_, rfl⟩
  rw [addItem_step s cur b genId now h]

/-- Witness for the amended C9 at a concrete well-formed body. -/
theorem add_item_wellformed_iff_body_witness :
    (addItem sColEmpty bodyText "i1" "t1").2 = .created (mkNewItem bodyText "i1" "t1") ∧
    specWellFormedItem (mkNewItem bodyText "i1" "t1") = specWellFormedBody bodyText :=
  add_item_wellformed_iff_body sColEmpty colEmpty bodyText "i1" "t1" rfl

end CrossClip
